import Mathlib

set_option linter.unusedVariables false

/-!
Verification of the burncloud-database facade (src/src/database.rs and the
error taxonomy re-exported through src/src/lib.rs).

The repository is a thin wrapper around the sqlx SQLite driver.  We embed the
wrapper's own logic directly from `database.rs`; everything the wrapper merely
delegates to the driver (statement execution, row fetching) is parameterised
by the driver's reported outcome for the statement, so each facade method is a
function of the facade state and that outcome.  Side effects on the connection
pool are recorded as an explicit list of `Action`s.
-/

namespace BurnCloud

/-- A result row as handed back by the driver (an ordered list of column
values; the concrete cell representation is irrelevant to the claims). -/
abbrev Row := List String

/-- Errors reported by the sqlx driver for one statement.  `RowNotFound` is
sqlx's dedicated zero-row error; every other driver failure (SQL syntax
error, constraint violation, missing table, pool failure, row-decoding
failure) is collapsed to its message. -/
inductive DriverError where
  | RowNotFound : DriverError
  | Other (msg : String) : DriverError
deriving DecidableEq, Repr

/-- Modelled from the spec: `src/error.rs` (the `DatabaseError` enum and the
`Result` alias) is re-exported by `lib.rs` but its file is not in the
snapshot; the spec's closed error taxonomy (§7) lists exactly these kinds,
with `PathResolution` and `DirectoryCreation` carrying a reason string and
`Connection` wrapping the driver's native error unchanged. -/
inductive DatabaseError where
  | PathResolution (reason : String)
  | DirectoryCreation (reason : String)
  | NotInitialized
  | Connection (err : DriverError)
deriving DecidableEq, Repr

/-- Row-count summary returned by `execute` (sqlx::sqlite::SqliteQueryResult). -/
structure SqliteQueryResult where
  rows_affected : Nat
  last_insert_rowid : Int
deriving DecidableEq, Repr

/-! ## Model of the sqlx driver surface used by database.rs

`database.rs` calls `sqlx::query(...).execute`, `...fetch_all`, and
`sqlx::query_as::<_, T>(...).fetch_one / fetch_all / fetch_optional`.
The engine's answer to a statement is abstracted as
`Except DriverError (List Row)` (an error, or the ordered result rows), and
row deserialisation (`FromRow`) as `decode : Row → Except DriverError T`.
The fetch combinators below follow sqlx's documented semantics:
`fetch_optional` yields the first row if any, `fetch_one` yields the first
row or fails with `RowNotFound` when there is none, `fetch_all` yields every
row in order. -/

namespace Sqlx

/-- Model of `sqlx::query_as::<_, T>(q).fetch_one(pool)`: first decoded row, or
`RowNotFound` when the result set is empty. -/
def query_as_fetch_one {T : Type} (decode : Row → Except DriverError T)
    (outcome : Except DriverError (List Row)) : Except DriverError T := do
  let rows ← outcome
  match rows with
  | [] => Except.error DriverError.RowNotFound
  | r :: _ => decode r

/-- Model of `sqlx::query_as::<_, T>(q).fetch_optional(pool)`: `none` on an empty
result set, otherwise the first decoded row. -/
def query_as_fetch_optional {T : Type} (decode : Row → Except DriverError T)
    (outcome : Except DriverError (List Row)) : Except DriverError (Option T) := do
  let rows ← outcome
  match rows with
  | [] => pure none
  | r :: _ => Except.map some (decode r)

/-- Model of `sqlx::query_as::<_, T>(q).fetch_all(pool)`: every row decoded, in
engine-return order. -/
def query_as_fetch_all {T : Type} (decode : Row → Except DriverError T)
    (outcome : Except DriverError (List Row)) : Except DriverError (List T) := do
  let rows ← outcome
  rows.mapM decode

end Sqlx

/-- Handle type: `DatabaseConnection` wraps a `SqlitePool`; pools are distinguished by an
abstract identity. -/
structure DatabaseConnection where
  poolId : Nat
deriving DecidableEq, Repr

/-- Observable pool side effects of the facade operations. -/
inductive Action where
  | openPool (url : String)
  | closePool (c : DatabaseConnection)
deriving DecidableEq, Repr

/-- Method `DatabaseConnection::close`: `self.pool.close().await` — infallible,
closes the wrapped pool. -/
def DatabaseConnection.close (c : DatabaseConnection) : List Action :=
  [Action.closePool c]

/-- The `Database` facade: an optional connection handle and the held path
(database.rs lines 29–32). -/
structure Database where
  connection : Option DatabaseConnection
  database_path : String
deriving DecidableEq, Repr

/-- Rust `self.database_path.replace('\\', "/")`: a single-character pattern
replaced by a single-character string is a per-character map. -/
def normalize_path (s : String) : String :=
  String.mk (s.data.map (fun c => if c = '\\' then '/' else c))

/-- The connection URL computed by `Database::initialize`
(database.rs lines 50–58). -/
def Database.database_url (db : Database) : String :=
  if db.database_path = ":memory:" then "sqlite::memory:"
  else "sqlite://" ++ normalize_path db.database_path ++ "?mode=rwc"

/-- Method `Database::initialize` (database.rs lines 49–64): build the URL, attempt
`DatabaseConnection::new` (outcome supplied by the driver as `connect`), and
on success overwrite `self.connection` with the fresh handle.  Returns the
new facade state, the pool actions performed, and the result.  No close
action is ever emitted. -/
def Database.init (db : Database)
    (connect : Except DriverError DatabaseConnection) :
    Database × List Action × Except DatabaseError Unit :=
  match connect with
  | Except.error e =>
      (db, [Action.openPool db.database_url], Except.error (DatabaseError.Connection e))
  | Except.ok c =>
      ({ db with connection := some c }, [Action.openPool db.database_url], Except.ok ())

/-- Method `Database::connection` accessor (database.rs lines 66–70): the held
handle, or `NotInitialized`. -/
def Database.connection? (db : Database) : Except DatabaseError DatabaseConnection :=
  match db.connection with
  | some c => Except.ok c
  | none => Except.error DatabaseError.NotInitialized

/-- Method `Database::close` (database.rs lines 78–83): take the handle if present
and close its pool; always returns `Ok(())`. -/
def Database.close (db : Database) : List Action × Except DatabaseError Unit :=
  match db.connection with
  | some c => (c.close, Except.ok ())
  | none => ([], Except.ok ())

/-- Method `Database::execute_query` (database.rs lines 85–89): require the handle,
then delegate the statement to the driver, wrapping its error in
`Connection`.  The receiver is `&self`, so the facade state is returned
unchanged. -/
def Database.execute_query (db : Database) (query : String)
    (outcome : Except DriverError SqliteQueryResult) :
    Database × Except DatabaseError SqliteQueryResult :=
  match db.connection with
  | none => (db, Except.error DatabaseError.NotInitialized)
  | some _ => (db, Except.mapError DatabaseError.Connection outcome)

/-- Method `Database::execute_query_with_params` (database.rs lines 91–101): binds
each parameter in order, then executes; the bound statement's outcome is the
driver's answer to (query, params). -/
def Database.execute_query_with_params (db : Database) (query : String)
    (params : List String) (outcome : Except DriverError SqliteQueryResult) :
    Database × Except DatabaseError SqliteQueryResult :=
  match db.connection with
  | none => (db, Except.error DatabaseError.NotInitialized)
  | some _ => (db, Except.mapError DatabaseError.Connection outcome)

/-- Method `Database::query` (database.rs lines 103–107): raw rows via
`sqlx::query(...).fetch_all`. -/
def Database.query (db : Database) (query : String)
    (outcome : Except DriverError (List Row)) :
    Database × Except DatabaseError (List Row) :=
  match db.connection with
  | none => (db, Except.error DatabaseError.NotInitialized)
  | some _ => (db, Except.mapError DatabaseError.Connection outcome)

/-- Method `Database::query_with_params` (database.rs lines 109–119). -/
def Database.query_with_params (db : Database) (query : String)
    (params : List String) (outcome : Except DriverError (List Row)) :
    Database × Except DatabaseError (List Row) :=
  match db.connection with
  | none => (db, Except.error DatabaseError.NotInitialized)
  | some _ => (db, Except.mapError DatabaseError.Connection outcome)

/-- Method `Database::fetch_one` (database.rs lines 121–128): require the handle,
then `sqlx::query_as(...).fetch_one`. -/
def Database.fetch_one {T : Type} (db : Database) (query : String)
    (decode : Row → Except DriverError T)
    (outcome : Except DriverError (List Row)) :
    Database × Except DatabaseError T :=
  match db.connection with
  | none => (db, Except.error DatabaseError.NotInitialized)
  | some _ =>
      (db, Except.mapError DatabaseError.Connection (Sqlx.query_as_fetch_one decode outcome))

/-- Method `Database::fetch_all` (database.rs lines 130–137). -/
def Database.fetch_all {T : Type} (db : Database) (query : String)
    (decode : Row → Except DriverError T)
    (outcome : Except DriverError (List Row)) :
    Database × Except DatabaseError (List T) :=
  match db.connection with
  | none => (db, Except.error DatabaseError.NotInitialized)
  | some _ =>
      (db, Except.mapError DatabaseError.Connection (Sqlx.query_as_fetch_all decode outcome))

/-- Method `Database::fetch_optional` (database.rs lines 139–146). -/
def Database.fetch_optional {T : Type} (db : Database) (query : String)
    (decode : Row → Except DriverError T)
    (outcome : Except DriverError (List Row)) :
    Database × Except DatabaseError (Option T) :=
  match db.connection with
  | none => (db, Except.error DatabaseError.NotInitialized)
  | some _ =>
      (db, Except.mapError DatabaseError.Connection (Sqlx.query_as_fetch_optional decode outcome))

/-! ## Path resolver and directory provisioner

`get_default_database_path` (database.rs lines 155–176) reads only the host
environment: whether the target OS is Windows (`cfg!(target_os = "windows")`),
the `USERPROFILE` environment variable, and `dirs::home_dir()`.  We make that
environment an explicit record.  A `PathBuf` is its list of components;
`PathBuf::join` appends a component. -/

/-- Snapshot of the host environment consulted by the path resolver. -/
structure Env where
  is_windows : Bool
  userProfile : Option String
  homeDir : Option String
deriving DecidableEq, Repr

/-- A filesystem path as its list of components. -/
abbrev PathBuf := List String

/-- Function `get_default_database_path` (database.rs lines 159–176): on Windows,
`%USERPROFILE%\AppData\Local\BurnCloud\data.db`, failing with a
`PathResolution` error when `USERPROFILE` is absent (`std::env::var`'s
`NotPresent` error displays as "environment variable not found"); elsewhere
`~/.burncloud/data.db`, failing with a `PathResolution` error when the home
directory cannot be resolved. -/
def get_default_database_path (env : Env) : Except DatabaseError PathBuf :=
  if env.is_windows then
    match env.userProfile with
    | none =>
        Except.error (DatabaseError.PathResolution
          "USERPROFILE not found: environment variable not found")
    | some up => Except.ok [up, "AppData", "Local", "BurnCloud", "data.db"]
  else
    match env.homeDir with
    | none => Except.error (DatabaseError.PathResolution "Home directory not found")
    | some hd => Except.ok [hd, ".burncloud", "data.db"]

/-- Model of `Path::display` for the error message of the directory provisioner. -/
def displayPath (p : PathBuf) : String :=
  String.intercalate "/" p

/-- Model of `Path::parent`: the path without its final component; `None` only for the
empty path. -/
def pathParent (p : PathBuf) : Option PathBuf :=
  match p with
  | [] => none
  | _ :: _ => some p.dropLast

/-- The nonempty prefixes of a directory path: the chain of directories that
`std::fs::create_dir_all` guarantees to exist on success ("Recursively create
a directory and all of its parent components if they are missing"). -/
def ancestorChain (dir : PathBuf) : List PathBuf :=
  (List.range dir.length).map (fun k => dir.take (k + 1))

/-- The filesystem as the set of directories that exist. -/
abbrev Fs := List PathBuf

/-- Effect of a successful `std::fs::create_dir_all(dir)` on the filesystem
model: the directory and all its ancestors now exist. -/
def create_dir_all (fs : Fs) (dir : PathBuf) : Fs :=
  ancestorChain dir ++ fs

/-- Function `create_directory_if_not_exists` (database.rs lines 178–186): if the
target path has a parent that does not yet exist, call
`std::fs::create_dir_all` on it, mapping an OS failure (`osErr`, the OS error
message when creation is not possible) to a `DirectoryCreation` error whose
message is `format!("{}: {}", parent.display(), e)`; otherwise do nothing.
Returns the new filesystem and the result. -/
def create_directory_if_not_exists (fs : Fs) (path : PathBuf)
    (osErr : Option String) : Fs × Except DatabaseError Unit :=
  match pathParent path with
  | none => (fs, Except.ok ())
  | some parent =>
      if parent ∈ fs then (fs, Except.ok ())
      else
        match osErr with
        | some e =>
            (fs, Except.error (DatabaseError.DirectoryCreation (displayPath parent ++ ": " ++ e)))
        | none => (create_dir_all fs parent, Except.ok ())

/-- A filesystem is ancestor-closed when every existing directory's nonempty
prefixes also exist — the invariant any real filesystem satisfies. -/
def AncestorClosed (fs : Fs) : Prop :=
  ∀ d ∈ fs, ∀ k : Nat, d.take (k + 1) ∈ fs

/-! ## Helper lemmas -/

theorem query_as_fetch_one_ok_nil {T : Type} (decode : Row → Except DriverError T) :
    Sqlx.query_as_fetch_one decode (Except.ok []) = Except.error DriverError.RowNotFound := rfl

theorem query_as_fetch_one_ok_cons {T : Type} (decode : Row → Except DriverError T)
    (r : Row) (rest : List Row) :
    Sqlx.query_as_fetch_one decode (Except.ok (r :: rest)) = decode r := rfl

theorem query_as_fetch_optional_ok_nil {T : Type} (decode : Row → Except DriverError T) :
    Sqlx.query_as_fetch_optional decode (Except.ok []) = Except.ok none := rfl

theorem query_as_fetch_optional_ok_cons {T : Type} (decode : Row → Except DriverError T)
    (r : Row) (rest : List Row) :
    Sqlx.query_as_fetch_optional decode (Except.ok (r :: rest)) =
      Except.map some (decode r) := rfl

/-! ## Claims -/

/-- C1: every query-surface operation of the facade (connection accessor,
execute_query, execute_query_with_params, query, query_with_params,
fetch_one, fetch_all, fetch_optional) returns the `NotInitialized` error on a
facade holding no connection handle, whatever statement, parameters and
driver outcome are supplied; in particular no query method succeeds, and all
the operations are total functions (no panic). -/
theorem C1_uninitialized_query_surface (db : Database) (h : db.connection = none) :
    db.connection? = Except.error DatabaseError.NotInitialized ∧
    (∀ q o, (db.execute_query q o).2 = Except.error DatabaseError.NotInitialized) ∧
    (∀ q ps o, (db.execute_query_with_params q ps o).2 =
        Except.error DatabaseError.NotInitialized) ∧
    (∀ q o, (db.query q o).2 = Except.error DatabaseError.NotInitialized) ∧
    (∀ q ps o, (db.query_with_params q ps o).2 = Except.error DatabaseError.NotInitialized) ∧
    (∀ (T : Type) (q : String) (decode : Row → Except DriverError T) o,
        (db.fetch_one q decode o).2 = Except.error DatabaseError.NotInitialized) ∧
    (∀ (T : Type) (q : String) (decode : Row → Except DriverError T) o,
        (db.fetch_all q decode o).2 = Except.error DatabaseError.NotInitialized) ∧
    (∀ (T : Type) (q : String) (decode : Row → Except DriverError T) o,
        (db.fetch_optional q decode o).2 = Except.error DatabaseError.NotInitialized) := by
  obtain ⟨conn, path⟩ := db
  cases h
  exact ⟨rfl, fun q o => rfl, fun q ps o => rfl, fun q o => rfl, fun q ps o => rfl,
    fun T q d o => rfl, fun T q d o => rfl, fun T q d o => rfl⟩

/-- C1 witness: on a concrete never-initialized facade, each query-surface
operation evaluates to the `NotInitialized` error. -/
theorem C1_witness :
    ({ connection := none, database_path := "p" } : Database).connection? =
        Except.error DatabaseError.NotInitialized ∧
    (({ connection := none, database_path := "p" } : Database).execute_query "SELECT 1"
        (Except.ok ⟨0, 0⟩)).2 = Except.error DatabaseError.NotInitialized ∧
    (({ connection := none, database_path := "p" } : Database).fetch_one "SELECT 1"
        Except.ok (Except.ok [])).2 = Except.error DatabaseError.NotInitialized ∧
    (({ connection := none, database_path := "p" } : Database).fetch_optional "SELECT 1"
        Except.ok (Except.ok [])).2 = Except.error DatabaseError.NotInitialized := by
  refine ⟨(C1_uninitialized_query_surface _ rfl).1, ?_, ?_, ?_⟩
  · exact (C1_uninitialized_query_surface _ rfl).2.1 "SELECT 1" (Except.ok ⟨0, 0⟩)
  · exact (C1_uninitialized_query_surface _ rfl).2.2.2.2.2.1 Row "SELECT 1"
      Except.ok (Except.ok [])
  · exact (C1_uninitialized_query_surface _ rfl).2.2.2.2.2.2.2 Row "SELECT 1"
      Except.ok (Except.ok [])

/-- C2 counterexample: on an initialized facade, a result set of two rows
does not make fetch_one fail — it succeeds with the first row decoded —
refuting the claim that fetch_one errors whenever more than one row
matches. -/
theorem C2_counterexample :
    ([["a"], ["b"]] : List Row).length > 1 ∧
    (({ connection := some ⟨0⟩, database_path := ":memory:" } : Database).fetch_one
        "SELECT v FROM t" Except.ok (Except.ok [["a"], ["b"]])).2 =
      Except.ok (["a"] : Row) := by
  exact ⟨by decide, rfl⟩

/-- C2 (amended): on an initialized facade, fetch_one returns an error
exactly when the result set is empty (the driver's RowNotFound, wrapped in
Connection); whenever at least one row matches — including more than one —
it succeeds with the first row deserialized. -/
theorem C2_fetch_one_amended {T : Type} (db : Database) (c : DatabaseConnection)
    (h : db.connection = some c) (q : String) (decode : Row → Except DriverError T)
    (rows : List Row) :
    (rows = [] → (db.fetch_one q decode (Except.ok rows)).2 =
        Except.error (DatabaseError.Connection DriverError.RowNotFound)) ∧
    (∀ r rest t, rows = r :: rest → decode r = Except.ok t →
        (db.fetch_one q decode (Except.ok rows)).2 = Except.ok t) := by
  obtain ⟨conn, path⟩ := db
  cases h
  constructor
  · rintro rfl
    rfl
  · rintro r rest t rfl hdec
    show Except.mapError DatabaseError.Connection
        (Sqlx.query_as_fetch_one decode (Except.ok (r :: rest))) = Except.ok t
    rw [query_as_fetch_one_ok_cons, hdec]
    rfl

/-- C2 witness: concrete evaluations of the amended statement — the empty
result set yields the wrapped RowNotFound error, a one-row result set yields
that row. -/
theorem C2_witness :
    (({ connection := some ⟨0⟩, database_path := "p" } : Database).fetch_one "q"
        Except.ok (Except.ok ([] : List Row))).2 =
      Except.error (DatabaseError.Connection DriverError.RowNotFound) ∧
    (({ connection := some ⟨0⟩, database_path := "p" } : Database).fetch_one "q"
        Except.ok (Except.ok [["x"]])).2 = Except.ok (["x"] : Row) := by
  refine ⟨(C2_fetch_one_amended _ ⟨0⟩ rfl "q" Except.ok []).1 rfl, ?_⟩
  exact (C2_fetch_one_amended _ ⟨0⟩ rfl "q" Except.ok [["x"]]).2 ["x"] [] ["x"] rfl rfl

/-- C8: on an initialized facade, fetch_optional on an empty result set
succeeds with `none` (never an error); on a nonempty result set whose first
row deserializes, it succeeds with that row. -/
theorem C8_fetch_optional_empty_ok {T : Type} (db : Database) (c : DatabaseConnection)
    (h : db.connection = some c) (q : String) (decode : Row → Except DriverError T)
    (rows : List Row) :
    (rows = [] → (db.fetch_optional q decode (Except.ok rows)).2 = Except.ok none) ∧
    (∀ r rest t, rows = r :: rest → decode r = Except.ok t →
        (db.fetch_optional q decode (Except.ok rows)).2 = Except.ok (some t)) := by
  obtain ⟨conn, path⟩ := db
  cases h
  constructor
  · rintro rfl
    rfl
  · rintro r rest t rfl hdec
    show Except.mapError DatabaseError.Connection
        (Sqlx.query_as_fetch_optional decode (Except.ok (r :: rest))) = Except.ok (some t)
    rw [query_as_fetch_optional_ok_cons, hdec]
    rfl

/-- C8 witness: concrete evaluations — zero rows give `Ok none`, one row
gives `Ok (some row)`. -/
theorem C8_witness :
    (({ connection := some ⟨0⟩, database_path := "p" } : Database).fetch_optional "q"
        Except.ok (Except.ok ([] : List Row))).2 = Except.ok none ∧
    (({ connection := some ⟨0⟩, database_path := "p" } : Database).fetch_optional "q"
        Except.ok (Except.ok [["x"]])).2 = Except.ok (some (["x"] : Row)) := by
  refine ⟨(C8_fetch_optional_empty_ok _ ⟨0⟩ rfl "q" Except.ok []).1 rfl, ?_⟩
  exact (C8_fetch_optional_empty_ok _ ⟨0⟩ rfl "q" Except.ok [["x"]]).2 ["x"] [] ["x"] rfl rfl

/-- C3: whenever the path resolver succeeds, the returned path's final
component is `data.db`, and the path is built from the platform fragment:
`<USERPROFILE>/AppData/Local/BurnCloud` on the Windows family, and
`<home>/.burncloud` on every other family. -/
theorem C3_default_path_shape (env : Env) (p : PathBuf)
    (h : get_default_database_path env = Except.ok p) :
    p.getLast? = some "data.db" ∧
    (env.is_windows = true →
      ∃ up, env.userProfile = some up ∧
        p = [up, "AppData", "Local", "BurnCloud", "data.db"]) ∧
    (env.is_windows = false →
      ∃ hd, env.homeDir = some hd ∧ p = [hd, ".burncloud", "data.db"]) := by
  obtain ⟨w, uprof, hdir⟩ := env
  cases w
  · cases hdir with
    | none => simp [get_default_database_path] at h
    | some hd =>
        simp [get_default_database_path] at h
        subst h
        exact ⟨rfl, by simp, fun _ => ⟨hd, rfl, rfl⟩⟩
  · cases uprof with
    | none => simp [get_default_database_path] at h
    | some up =>
        simp [get_default_database_path] at h
        subst h
        exact ⟨rfl, fun _ => ⟨up, rfl, rfl⟩, by simp⟩

/-- C3 witness: a concrete non-Windows environment resolves to
`<home>/.burncloud/data.db`, ending in `data.db`. -/
theorem C3_witness :
    ([("/home/u" : String), ".burncloud", "data.db"] : PathBuf).getLast? = some "data.db" ∧
    (∃ hd, (⟨false, none, some "/home/u"⟩ : Env).homeDir = some hd ∧
      ([("/home/u" : String), ".burncloud", "data.db"] : PathBuf) =
        [hd, ".burncloud", "data.db"]) := by
  have h := C3_default_path_shape ⟨false, none, some "/home/u"⟩
    ["/home/u", ".burncloud", "data.db"] rfl
  exact ⟨h.1, h.2.2 rfl⟩

/-- C6: the path resolver is a pure function of the host environment
snapshot; it fails exactly when the environment lacks the needed datum
(USERPROFILE on the Windows family, the home directory elsewhere), and every
failure is a `PathResolution` error carrying a nonempty descriptive
message. -/
theorem C6_path_resolver_pure_total (env : Env) :
    ((∃ e, get_default_database_path env = Except.error e) ↔
      (env.is_windows = true ∧ env.userProfile = none) ∨
      (env.is_windows = false ∧ env.homeDir = none)) ∧
    (env.is_windows = true → env.userProfile = none →
      get_default_database_path env = Except.error (DatabaseError.PathResolution
        "USERPROFILE not found: environment variable not found")) ∧
    (env.is_windows = false → env.homeDir = none →
      get_default_database_path env = Except.error (DatabaseError.PathResolution
        "Home directory not found")) ∧
    (∀ e, get_default_database_path env = Except.error e →
      ∃ reason, e = DatabaseError.PathResolution reason ∧ reason.length > 0) := by
  obtain ⟨w, uprof, hdir⟩ := env
  cases w
  · cases hdir with
    | none =>
        refine ⟨by simp [get_default_database_path], by simp, fun _ _ => rfl, ?_⟩
        intro e he
        simp [get_default_database_path] at he
        subst he
        exact ⟨"Home directory not found", rfl, by decide⟩
    | some hd =>
        refine ⟨by simp [get_default_database_path], by simp, by simp, ?_⟩
        intro e he
        simp [get_default_database_path] at he
  · cases uprof with
    | none =>
        refine ⟨by simp [get_default_database_path], fun _ _ => rfl, by simp, ?_⟩
        intro e he
        simp [get_default_database_path] at he
        subst he
        exact ⟨"USERPROFILE not found: environment variable not found", rfl, by decide⟩
    | some up =>
        refine ⟨by simp [get_default_database_path], by simp, by simp, ?_⟩
        intro e he
        simp [get_default_database_path] at he

/-- C6 witness: a concrete environment with no home directory on a
non-Windows family fails with the `PathResolution` error carrying the
descriptive message. -/
theorem C6_witness :
    get_default_database_path ⟨false, none, none⟩ =
      Except.error (DatabaseError.PathResolution "Home directory not found") :=
  (C6_path_resolver_pure_total ⟨false, none, none⟩).2.2.1 rfl rfl

/-- C4 counterexample: for the held path `C:\data` (not the in-memory
sentinel) the URL opened by initialize is not `sqlite://C:\data?mode=rwc` —
the code first replaces backslashes with forward slashes, giving
`sqlite://C:/data?mode=rwc` — refuting the claim's URL for paths containing
backslashes. -/
theorem C4_counterexample :
    ({ connection := none, database_path := "C:\\data" } : Database).database_path ≠
      ":memory:" ∧
    ({ connection := none, database_path := "C:\\data" } : Database).database_url ≠
      "sqlite://" ++ "C:\\data" ++ "?mode=rwc" ∧
    ({ connection := none, database_path := "C:\\data" } : Database).database_url =
      "sqlite://C:/data?mode=rwc" := by
  exact ⟨by decide, by decide, by decide⟩

/-- C4 (amended): initialize opens the in-memory URL `sqlite::memory:` if and
only if the held path equals the sentinel `:memory:`; for every other held
path it opens the file-backed URL `sqlite://<path>?mode=rwc` where `<path>`
is the held path with every backslash replaced by a forward slash, and that
URL is never the in-memory one; the URL opened by initialize is exactly
`database_url`. -/
theorem C4_init_url (db : Database) :
    (db.database_path = ":memory:" → db.database_url = "sqlite::memory:") ∧
    (db.database_path ≠ ":memory:" →
      db.database_url = "sqlite://" ++ normalize_path db.database_path ++ "?mode=rwc" ∧
      db.database_url ≠ "sqlite::memory:") ∧
    (∀ connect, (db.init connect).2.1 = [Action.openPool db.database_url]) := by
  refine ⟨?_, ?_, ?_⟩
  · intro hmem
    rw [Database.database_url, if_pos hmem]
  · intro hne
    rw [Database.database_url, if_neg hne]
    refine ⟨rfl, ?_⟩
    intro hbad
    have hlen := congrArg String.length hbad
    rw [String.length_append, String.length_append] at hlen
    have h1 : ("sqlite://" : String).length = 9 := rfl
    have h2 : ("?mode=rwc" : String).length = 9 := rfl
    have h3 : ("sqlite::memory:" : String).length = 15 := rfl
    omega
  · intro connect
    cases connect <;> rfl

/-- C4 witness: the sentinel path yields the in-memory URL; a concrete file
path yields the file-backed URL. -/
theorem C4_witness :
    ({ connection := none, database_path := ":memory:" } : Database).database_url =
      "sqlite::memory:" ∧
    ({ connection := none, database_path := "/tmp/x.db" } : Database).database_url =
      "sqlite://" ++ normalize_path "/tmp/x.db" ++ "?mode=rwc" := by
  exact ⟨(C4_init_url _).1 rfl, ((C4_init_url _).2.1 (by decide)).1⟩

/-- C5: initialize is not idempotent — on a facade already holding a handle,
a second initialize opens a new pool and replaces the held handle with the
new one, and no close action on the previous handle is performed. -/
theorem C5_init_replaces_handle (db : Database) (c0 c1 : DatabaseConnection)
    (h : db.connection = some c0) :
    (db.init (Except.ok c1)).1.connection = some c1 ∧
    (db.init (Except.ok c1)).2.2 = Except.ok () ∧
    Action.openPool db.database_url ∈ (db.init (Except.ok c1)).2.1 ∧
    Action.closePool c0 ∉ (db.init (Except.ok c1)).2.1 := by
  obtain ⟨conn, path⟩ := db
  cases h
  exact ⟨rfl, rfl, by simp [Database.init], by simp [Database.init]⟩

/-- C5 witness: on a concrete initialized facade, re-initializing with a
fresh pool replaces handle 0 by handle 1 without closing handle 0. -/
theorem C5_witness :
    (({ connection := some ⟨0⟩, database_path := ":memory:" } : Database).init
        (Except.ok ⟨1⟩)).1.connection = some ⟨1⟩ ∧
    Action.closePool ⟨0⟩ ∉
      (({ connection := some ⟨0⟩, database_path := ":memory:" } : Database).init
        (Except.ok ⟨1⟩)).2.1 := by
  have h := C5_init_replaces_handle
    { connection := some ⟨0⟩, database_path := ":memory:" } ⟨0⟩ ⟨1⟩ rfl
  exact ⟨h.1, h.2.2.2⟩

/-- C7: the directory provisioner leaves the filesystem unchanged when the
target's parent directory already exists; when the parent is missing and
creation succeeds it creates the whole ancestor chain of the parent; when
creation is not possible it fails with a `DirectoryCreation` error wrapping
the directory path and the filesystem error; and on any successful run over
an ancestor-closed filesystem, the parent's whole directory chain exists
afterwards. -/
theorem C7_directory_provisioner (fs : Fs) (path : PathBuf) (osErr : Option String)
    (parent : PathBuf) (hp : pathParent path = some parent) :
    (parent ∈ fs → create_directory_if_not_exists fs path osErr = (fs, Except.ok ())) ∧
    (parent ∉ fs → osErr = none →
      create_directory_if_not_exists fs path osErr =
        (create_dir_all fs parent, Except.ok ())) ∧
    (∀ e, parent ∉ fs → osErr = some e →
      create_directory_if_not_exists fs path osErr =
        (fs, Except.error (DatabaseError.DirectoryCreation
          (displayPath parent ++ ": " ++ e)))) ∧
    (AncestorClosed fs →
      (create_directory_if_not_exists fs path osErr).2 = Except.ok () →
      ∀ k, k < parent.length →
        parent.take (k + 1) ∈ (create_directory_if_not_exists fs path osErr).1) := by
  by_cases hmem : parent ∈ fs
  · refine ⟨fun _ => ?_, fun hno _ => absurd hmem hno, fun e hno _ => absurd hmem hno, ?_⟩
    · simp [create_directory_if_not_exists, hp, hmem]
    · intro hclosed _ k hk
      have h1 : (create_directory_if_not_exists fs path osErr).1 = fs := by
        simp [create_directory_if_not_exists, hp, hmem]
      rw [h1]
      simpa using hclosed parent hmem k
  · cases osErr with
    | none =>
        refine ⟨fun hmem2 => absurd hmem2 hmem, fun _ _ => ?_, ?_, ?_⟩
        · simp [create_directory_if_not_exists, hp, hmem]
        · intro e hno he
          cases he
        · intro _ _ k hk
          have h1 : (create_directory_if_not_exists fs path none).1 =
              create_dir_all fs parent := by
            simp [create_directory_if_not_exists, hp, hmem]
          rw [h1]
          unfold create_dir_all ancestorChain
          exact List.mem_append.mpr (Or.inl (List.mem_map.mpr
            ⟨k, List.mem_range.mpr hk, rfl⟩))
    | some e0 =>
        refine ⟨fun hmem2 => absurd hmem2 hmem, ?_, ?_, ?_⟩
        · intro _ he
          cases he
        · intro e hno he
          cases he
          simp [create_directory_if_not_exists, hp, hmem]
        · intro hclosed hok
          exfalso
          have h2 : (create_directory_if_not_exists fs path (some e0)).2 =
              Except.error (DatabaseError.DirectoryCreation
                (displayPath parent ++ ": " ++ e0)) := by
            simp [create_directory_if_not_exists, hp, hmem]
          rw [h2] at hok
          simp at hok

/-- C7 witness: on an empty filesystem and target `home/user/data.db` with
creation possible, the provisioner creates the chain `home`, `home/user`;
and when the parent already exists the filesystem is unchanged. -/
theorem C7_witness :
    create_directory_if_not_exists [] ["home", "user", "data.db"] none =
      (create_dir_all [] ["home", "user"], Except.ok ()) ∧
    (["home"] : PathBuf) ∈
      (create_directory_if_not_exists [] ["home", "user", "data.db"] none).1 ∧
    create_directory_if_not_exists [["home", "user"]] ["home", "user", "data.db"]
        (some "permission denied") = ([["home", "user"]], Except.ok ()) := by
  have h := C7_directory_provisioner [] ["home", "user", "data.db"] none
    ["home", "user"] rfl
  have h2 := C7_directory_provisioner [["home", "user"]] ["home", "user", "data.db"]
    (some "permission denied") ["home", "user"] rfl
  refine ⟨h.2.1 (by simp) rfl, ?_, h2.1 (by simp)⟩
  have hmem := (h.2.2.2 (by intro d hd; simp at hd) (by rw [(h.2.1 (by simp) rfl)]) 0
    (by decide))
  simpa using hmem

/-- C9: a failed statement does not poison the facade — on an initialized
facade, an execute_query call whose statement the driver rejects returns the
wrapped `Connection` error, leaves the facade state (and held handle)
unchanged, and a subsequent statement the driver accepts on the same facade
succeeds. -/
theorem C9_failed_statement_no_poisoning (db : Database) (c : DatabaseConnection)
    (h : db.connection = some c) (q1 q2 : String) (e : DriverError)
    (r : SqliteQueryResult) :
    (db.execute_query q1 (Except.error e)).2 =
      Except.error (DatabaseError.Connection e) ∧
    (db.execute_query q1 (Except.error e)).1 = db ∧
    (db.execute_query q1 (Except.error e)).1.connection = some c ∧
    ((db.execute_query q1 (Except.error e)).1.execute_query q2 (Except.ok r)).2 =
      Except.ok r := by
  obtain ⟨conn, path⟩ := db
  cases h
  exact ⟨rfl, rfl, rfl, rfl⟩

/-- C9 witness: concrete duplicate-key-style failure followed by a valid
`SELECT 1` on the same facade — the failure surfaces as a Connection error,
the state is unchanged, and the second statement succeeds. -/
theorem C9_witness :
    (({ connection := some ⟨0⟩, database_path := "p" } : Database).execute_query
        "INSERT INTO t(id) VALUES(1)"
        (Except.error (DriverError.Other "UNIQUE constraint failed"))).2 =
      Except.error (DatabaseError.Connection (DriverError.Other
        "UNIQUE constraint failed")) ∧
    ((({ connection := some ⟨0⟩, database_path := "p" } : Database).execute_query
        "INSERT INTO t(id) VALUES(1)"
        (Except.error (DriverError.Other "UNIQUE constraint failed"))).1.execute_query
        "SELECT 1" (Except.ok ⟨0, 0⟩)).2 = Except.ok ⟨0, 0⟩ := by
  have h := C9_failed_statement_no_poisoning
    { connection := some ⟨0⟩, database_path := "p" } ⟨0⟩ rfl
    "INSERT INTO t(id) VALUES(1)" "SELECT 1"
    (DriverError.Other "UNIQUE constraint failed") ⟨0, 0⟩
  exact ⟨h.1, h.2.2.2⟩

/-- C10: close never fails — for every facade it returns `Ok(())`; when no
handle is held it performs no pool action, and when a handle is held it
closes exactly that handle's pool. -/
theorem C10_close_never_fails (db : Database) :
    (db.close).2 = Except.ok () ∧
    (db.connection = none → (db.close).1 = []) ∧
    (∀ c, db.connection = some c → (db.close).1 = DatabaseConnection.close c) := by
  obtain ⟨conn, path⟩ := db
  cases conn with
  | none => exact ⟨rfl, fun _ => rfl, fun c hc => Option.noConfusion hc⟩
  | some c0 =>
      refine ⟨rfl, fun hc => Option.noConfusion hc, ?_⟩
      intro c hc
      cases hc
      rfl

/-- C10 witness: close on a concrete initialized facade and on a concrete
uninitialized facade both return `Ok(())`, closing the pool exactly in the
first case. -/
theorem C10_witness :
    ({ connection := some ⟨0⟩, database_path := "p" } : Database).close =
      ([Action.closePool ⟨0⟩], Except.ok ()) ∧
    ({ connection := none, database_path := "p" } : Database).close =
      ([], Except.ok ()) := by
  have h1 := C10_close_never_fails { connection := some ⟨0⟩, database_path := "p" }
  have h2 := C10_close_never_fails { connection := none, database_path := "p" }
  constructor
  · have ha := h1.2.2 ⟨0⟩ rfl
    have hb := h1.1
    cases hc : ({ connection := some ⟨0⟩, database_path := "p" } : Database).close
    simp_all [DatabaseConnection.close]
  · have ha := h2.2.1 rfl
    have hb := h2.1
    cases hc : ({ connection := none, database_path := "p" } : Database).close
    simp_all

end BurnCloud
